import Mathlib

/-!
Verification of the AIFriday route-planner frontend utilities.

The definitions below are a shallow embedding of the JavaScript source in
`frontend/src/utils/helpers.js` and `frontend/src/components/ExportButton.jsx`.
JavaScript numbers are modelled as rationals (`ℚ`) except for the haversine
distance, which is modelled over the reals; dynamic JavaScript values are
modelled by the inductive type `JSValue`, which also carries `null`,
`undefined` and `NaN` so that the truthiness tests and strict-equality
comparisons of the source can be stated faithfully.  String-to-number
coercion follows the `StringNumericLiteral` grammar (decimal literals with
optional sign and exponent, hex/octal/binary prefixes, `Infinity`), with
codomain `Option JSNum` — a finite rational or a signed infinity, `none`
standing for `NaN`.
-/

namespace RoutePlanner

/-- Model of a dynamic JavaScript value as it appears in parsed delivery
records: `null`, `undefined`, `NaN`, a (finite) number, a string, or a
boolean. -/
inductive JSValue where
  | vnull : JSValue
  | vundef : JSValue
  | vnan : JSValue
  | vnum : ℚ → JSValue
  | vstr : String → JSValue
  | vbool : Bool → JSValue
deriving DecidableEq

/-- A non-NaN JavaScript number: a finite value or a signed infinity.
(`Option JSNum` with `none` for `NaN` is the full codomain of `ToNumber`.) -/
inductive JSNum where
  | fin : ℚ → JSNum
  | inf : Bool → JSNum
deriving DecidableEq

/-- JavaScript unary minus on a non-NaN number. -/
def jsnumNeg : JSNum → JSNum
  | .fin q => .fin (-q)
  | .inf b => .inf (!b)

/-- Numeric value of a list of decimal digit characters. -/
def digitsVal (cs : List Char) : ℕ :=
  cs.foldl (fun acc c => acc * 10 + (c.toNat - 48)) 0

/-- Value of a hexadecimal digit character. -/
def hexDigitVal (c : Char) : ℕ :=
  if c.isDigit then c.toNat - 48
  else if 'a' ≤ c && c ≤ 'f' then c.toNat - 87
  else c.toNat - 55

/-- Numeric value of a digit list in base `b`. -/
def baseVal (b : ℕ) (cs : List Char) : ℕ :=
  cs.foldl (fun acc c => acc * b + hexDigitVal c) 0

/-- Hexadecimal digit predicate. -/
def isHexDigit (c : Char) : Bool :=
  c.isDigit || ('a' ≤ c && c ≤ 'f') || ('A' ≤ c && c ≤ 'F')

/-- Octal digit predicate. -/
def isOctDigit (c : Char) : Bool := '0' ≤ c && c ≤ '7'

/-- Binary digit predicate. -/
def isBinDigit (c : Char) : Bool := c == '0' || c == '1'

/-- Parse the mantissa of a decimal literal (`"12"`, `"12.5"`, `".5"`,
`"12."`) into a numerator and power-of-ten denominator exponent, so that
the mantissa value is `n / 10 ^ f`; `none` on anything else. -/
def parseDecimal (cs : List Char) : Option (ℕ × ℕ) :=
  let intPart := cs.takeWhile Char.isDigit
  let rest := cs.dropWhile Char.isDigit
  match rest with
  | [] => if intPart.isEmpty then none else some (digitsVal intPart, 0)
  | '.' :: frac =>
      if frac.all Char.isDigit && !(intPart.isEmpty && frac.isEmpty) then
        some (digitsVal intPart * 10 ^ frac.length + digitsVal frac, frac.length)
      else none
  | _ => none

/-- Parse the digits of an exponent part (after the `e`/`E`): an optional
sign followed by a nonempty digit run. -/
def parseExpDigits (cs : List Char) : Option ℤ :=
  match cs with
  | '+' :: ds => if !ds.isEmpty && ds.all Char.isDigit then some (digitsVal ds) else none
  | '-' :: ds => if !ds.isEmpty && ds.all Char.isDigit then some (-(digitsVal ds : ℤ)) else none
  | ds => if !ds.isEmpty && ds.all Char.isDigit then some (digitsVal ds) else none

/-- Parse an unsigned decimal literal with an optional exponent part
(`"12.5"`, `"1e3"`, `".5E-2"`), giving the rational `n / 10 ^ f` scaled by
ten to the exponent. -/
def parseUnsignedDec (cs : List Char) : Option ℚ :=
  let mantissa := cs.takeWhile (fun c => c != 'e' && c != 'E')
  let expPart := cs.dropWhile (fun c => c != 'e' && c != 'E')
  match expPart with
  | [] => (parseDecimal mantissa).map (fun p => mkRat p.1 (10 ^ p.2))
  | _ :: es => (parseDecimal mantissa).bind
      (fun p => (parseExpDigits es).map (fun e =>
        if 0 ≤ e then mkRat (p.1 * 10 ^ e.toNat) (10 ^ p.2)
        else mkRat p.1 (10 ^ p.2 * 10 ^ (-e).toNat)))

/-- Parse an unsigned numeric string: the literal `Infinity` or a decimal
literal with optional exponent. -/
def parseUnsigned (cs : List Char) : Option JSNum :=
  if cs = "Infinity".toList then some (.inf true)
  else (parseUnsignedDec cs).map .fin

/-- JavaScript `String.prototype.trim`: strip leading and trailing
whitespace. -/
def jsTrim (s : String) : String :=
  ⟨((s.data.dropWhile Char.isWhitespace).reverse.dropWhile Char.isWhitespace).reverse⟩

/-- JavaScript `Number(string)` coercion, following the
`StringNumericLiteral` grammar: surrounding whitespace is trimmed, the
empty string coerces to `0`, a hex/octal/binary prefix (no sign allowed)
introduces a non-decimal integer, and otherwise an optional sign precedes
`Infinity` or a decimal literal with optional exponent; everything else is
`NaN` (`none`). -/
def strToNum (s : String) : Option JSNum :=
  let t := jsTrim s
  if t = "" then some (.fin 0)
  else
    match t.toList with
    | '0' :: 'x' :: ds =>
        if !ds.isEmpty && ds.all isHexDigit then some (.fin (baseVal 16 ds)) else none
    | '0' :: 'X' :: ds =>
        if !ds.isEmpty && ds.all isHexDigit then some (.fin (baseVal 16 ds)) else none
    | '0' :: 'o' :: ds =>
        if !ds.isEmpty && ds.all isOctDigit then some (.fin (baseVal 8 ds)) else none
    | '0' :: 'O' :: ds =>
        if !ds.isEmpty && ds.all isOctDigit then some (.fin (baseVal 8 ds)) else none
    | '0' :: 'b' :: ds =>
        if !ds.isEmpty && ds.all isBinDigit then some (.fin (baseVal 2 ds)) else none
    | '0' :: 'B' :: ds =>
        if !ds.isEmpty && ds.all isBinDigit then some (.fin (baseVal 2 ds)) else none
    | '-' :: rest => (parseUnsigned rest).map jsnumNeg
    | '+' :: rest => parseUnsigned rest
    | cs => parseUnsigned cs

/-- JavaScript `ToNumber` on a dynamic value; `none` stands for `NaN`. -/
def toNumber : JSValue → Option JSNum
  | .vnull => some (.fin 0)
  | .vundef => none
  | .vnan => none
  | .vnum q => some (.fin q)
  | .vstr s => strToNum s
  | .vbool b => some (.fin (if b then 1 else 0))

/-- JavaScript truthiness: `null`, `undefined`, `NaN`, `0`, `""` and `false`
are falsy, everything else is truthy. -/
def jsTruthy : JSValue → Bool
  | .vnull => false
  | .vundef => false
  | .vnan => false
  | .vnum q => q != 0
  | .vstr s => s != ""
  | .vbool b => b

/-- JavaScript strict equality `===`: values of different types are never
equal, `NaN` is not equal to anything (itself included), otherwise
structural equality. -/
def jsStrictEq : JSValue → JSValue → Bool
  | .vnan, _ => false
  | _, .vnan => false
  | a, b => a == b

/-- String rendering of a dynamic value, as used in template literals. -/
def jsDisplay : JSValue → String
  | .vnull => "null"
  | .vundef => "undefined"
  | .vnan => "NaN"
  | .vnum q => if q.den = 1 then toString q.num else toString q
  | .vstr s => s
  | .vbool b => if b then "true" else "false"

/-- JavaScript `a || b`. -/
def jsOr (a b : JSValue) : JSValue := if jsTruthy a then a else b

/-- Truthiness of a possibly-absent property (an absent property reads as
`undefined`, which is falsy). -/
def jsTruthyO : Option JSValue → Bool
  | none => false
  | some v => jsTruthy v

/-- `ToNumber` of a possibly-absent property. -/
def toNumberO : Option JSValue → Option JSNum
  | none => none
  | some v => toNumber v

/-- JavaScript `v < c` for a dynamic value against a finite number literal:
`v` is coerced with `ToNumber`; a `NaN` operand makes the comparison
`false`, `-Infinity` is below and `+Infinity` above every finite value. -/
def jsLtO (v : Option JSValue) (c : ℚ) : Bool :=
  match toNumberO v with
  | some (.fin q) => decide (q < c)
  | some (.inf b) => !b
  | none => false

/-- JavaScript `v > c` for a dynamic value against a finite number
literal. -/
def jsGtO (v : Option JSValue) (c : ℚ) : Bool :=
  match toNumberO v with
  | some (.fin q) => decide (c < q)
  | some (.inf b) => b
  | none => false

/-- Rendering of a possibly-absent property in a template literal. -/
def jsDisplayO : Option JSValue → String
  | none => "undefined"
  | some v => jsDisplay v

/-- A parsed delivery record as `validateDeliveryData` reads it: each of the
five properties the validator inspects, `none` when the property is absent
from the object. -/
structure Item where
  id : Option JSValue
  customer_name : Option JSValue
  lat : Option JSValue
  lng : Option JSValue
  address : Option JSValue
deriving DecidableEq

/-- The required fields of `validateDeliveryData`, in source order. -/
def requiredFields : List String := ["id", "customer_name", "lat", "lng", "address"]

/-- Property lookup `item[field]` for the fields the validator reads. -/
def Item.get (item : Item) : String → Option JSValue
  | "id" => item.id
  | "customer_name" => item.customer_name
  | "lat" => item.lat
  | "lng" => item.lng
  | "address" => item.address
  | _ => none

/-- The source's missing-field test
`!(field in item) || item[field] === null || item[field] === undefined ||
item[field] === ''`. -/
def isMissing : Option JSValue → Bool
  | none => true
  | some .vnull => true
  | some .vundef => true
  | some v => v == .vstr ""

/-- Missing-or-empty-field errors contributed by one record, in the order of
`requiredFields`. -/
def requiredFieldErrors (item : Item) (index : ℕ) : List String :=
  (requiredFields.filter (fun f => isMissing (item.get f))).map
    (fun f => "Row " ++ toString (index + 1) ++ ": Missing or empty field '" ++ f ++ "'")

/-- The source's latitude range check
`if (item.lat && (item.lat < -90 || item.lat > 90))`. -/
def latRangeError (item : Item) (index : ℕ) : List String :=
  if jsTruthyO item.lat && (jsLtO item.lat (-90) || jsGtO item.lat 90) then
    ["Row " ++ toString (index + 1) ++ ": Invalid latitude value (" ++ jsDisplayO item.lat ++ ")"]
  else []

/-- The source's longitude range check
`if (item.lng && (item.lng < -180 || item.lng > 180))`. -/
def lngRangeError (item : Item) (index : ℕ) : List String :=
  if jsTruthyO item.lng && (jsLtO item.lng (-180) || jsGtO item.lng 180) then
    ["Row " ++ toString (index + 1) ++ ": Invalid longitude value (" ++ jsDisplayO item.lng ++ ")"]
  else []

/-- All errors contributed by one record, in push order: the five
required-field checks, then the latitude check, then the longitude check. -/
def recordErrors (item : Item) (index : ℕ) : List String :=
  requiredFieldErrors item index ++ latRangeError item index ++ lngRangeError item index

/-- The `data.forEach((item, index) => ...)` loop of `validateDeliveryData`,
collecting errors over the whole array. -/
def collectAux : List Item → ℕ → List String
  | [], _ => []
  | item :: rest, index => recordErrors item index ++ collectAux rest (index + 1)

/-- The untruncated list of per-record errors collected by
`validateDeliveryData`. -/
def collectErrors (data : List Item) : List String := collectAux data 0

/-- Result shape `{ isValid, errors }` of `validateDeliveryData`. -/
structure ValidationResult where
  isValid : Bool
  errors : List String
deriving DecidableEq

/-- `validateDeliveryData` from `helpers.js`: an empty array is rejected
outright; otherwise errors are collected over all records, `isValid` is
`errors.length === 0` on the untruncated list, and the reported list is
`errors.slice(0, 10)`. -/
def validateDeliveryData (data : List Item) : ValidationResult :=
  if data.isEmpty then { isValid := false, errors := ["Data must be a non-empty array"] }
  else
    let errors := collectErrors data
    { isValid := errors.isEmpty, errors := errors.take 10 }

/-- A decoded JSON document, the possible results of `JSON.parse`. -/
inductive JSON where
  | null : JSON
  | bool : Bool → JSON
  | num : ℚ → JSON
  | str : String → JSON
  | arr : List JSON → JSON
  | obj : List (String × JSON) → JSON

/-- `parseJSON` from `helpers.js`, after the file has been read: the input is
the result of `JSON.parse` (`none` when the text is not syntactically valid
JSON, in which case the promise rejects with `Invalid JSON format`); a
decoded array resolves as-is and any other decoded value `d` resolves as
`[d]` (`Array.isArray(data) ? data : [data]`). -/
def parseJSON (decoded : Option JSON) : Except String (List JSON) :=
  match decoded with
  | none => .error "Invalid JSON format"
  | some (.arr xs) => .ok xs
  | some d => .ok [d]

/-- `toRad` from `helpers.js`: degrees to radians. -/
noncomputable def toRad (degrees : ℝ) : ℝ := degrees * (Real.pi / 180)

/-- JavaScript `Math.atan2(y, x)` (on non-NaN finite inputs). -/
noncomputable def atan2 (y x : ℝ) : ℝ :=
  if 0 < x then Real.arctan (y / x)
  else if x < 0 then
    (if 0 ≤ y then Real.arctan (y / x) + Real.pi else Real.arctan (y / x) - Real.pi)
  else if 0 < y then Real.pi / 2
  else if y < 0 then -(Real.pi / 2)
  else 0

/-- The intermediate value `a` of the haversine formula in
`calculateDistance`. -/
noncomputable def haversineA (lat1 lon1 lat2 lon2 : ℝ) : ℝ :=
  let dLat := toRad (lat2 - lat1)
  let dLon := toRad (lon2 - lon1)
  Real.sin (dLat / 2) * Real.sin (dLat / 2) +
    Real.cos (toRad lat1) * Real.cos (toRad lat2) *
      (Real.sin (dLon / 2) * Real.sin (dLon / 2))

/-- `calculateDistance` from `helpers.js`: haversine distance in kilometers
with Earth radius 6371 km, the arithmetic read over the reals. -/
noncomputable def calculateDistance (lat1 lon1 lat2 lon2 : ℝ) : ℝ :=
  let R : ℝ := 6371
  let a := haversineA lat1 lon1 lat2 lon2
  let c := 2 * atan2 (Real.sqrt a) (Real.sqrt (1 - a))
  R * c

/-- JavaScript rounding as specified for `toFixed` and `Math.round`: the
integer nearest to `q`, the larger one at a tie. -/
def jsRound (q : ℚ) : ℤ := ⌊q + 1 / 2⌋

/-- `toFixed(0)` on a rational: round, then print the integer. -/
def toFixed0 (q : ℚ) : String := toString (jsRound q)

/-- Two-digit zero-padded rendering of a number below 100. -/
def pad2 (n : ℕ) : String := if n < 10 then "0" ++ toString n else toString n

/-- `toFixed(2)` on a rational: round `q * 100` and print with exactly two
decimal places. -/
def toFixed2 (q : ℚ) : String :=
  let n := jsRound (q * 100)
  let m := n.natAbs
  (if n < 0 then "-" else "") ++ toString (m / 100) ++ "." ++ pad2 (m % 100)

/-- `formatDistance` from `helpers.js`: under 1 km, whole meters with an
`m` suffix; otherwise two decimals with a `km` suffix. -/
def formatDistance (distance : ℚ) : String :=
  if distance < 1 then toFixed0 (distance * 1000) ++ " m"
  else toFixed2 distance ++ " km"

/-- JavaScript number truncation toward zero, used by the `%` operator. -/
def jsTrunc (x : ℚ) : ℤ := if 0 ≤ x then ⌊x⌋ else ⌈x⌉

/-- JavaScript remainder `a % b` (for `b ≠ 0`): same sign as the dividend,
`a - b * trunc(a / b)`. -/
def jsMod (a b : ℚ) : ℚ := a - b * (jsTrunc (a / b) : ℚ)

/-- `formatTime` from `helpers.js`: `Math.floor(minutes / 60)` hours and
`Math.round(minutes % 60)` minutes; `"M min"` when the hour count is zero,
`"Nh Mm"` otherwise. -/
def formatTime (minutes : ℚ) : String :=
  let hours : ℤ := ⌊minutes / 60⌋
  let mins : ℤ := jsRound (jsMod minutes 60)
  if hours = 0 then toString mins ++ " min"
  else toString hours ++ "h " ++ toString mins ++ "m"

/-- The fixed route-color palette of `getRouteColor`, in source order. -/
def routeColors : List String :=
  ["#3B82F6", "#EF4444", "#10B981", "#F59E0B", "#8B5CF6", "#EC4899", "#14B8A6", "#F97316"]

/-- `getRouteColor` from `helpers.js`: `colors[index % colors.length]`; the
index is a (nonnegative) route position, so the access is always in
bounds and the fallback value is never read. -/
def getRouteColor (index : ℕ) : String :=
  routeColors.getD (index % routeColors.length) ""

/-- A stop of a returned route, as `handleExportCSV` reads it: the
referenced delivery-point id and the optional incremental distance
(`undefined` when absent). -/
structure Stop where
  id : JSValue
  distance : JSValue
deriving DecidableEq

/-- A route of the optimizer response, as `handleExportCSV` reads it. -/
structure Route where
  stops : List Stop
  total_distance : JSValue
  estimated_time : JSValue
deriving DecidableEq

/-- A delivery point of the export bundle, as `handleExportCSV` reads it. -/
structure DeliveryPoint where
  id : JSValue
  customer_name : JSValue
  address : JSValue
  lat : JSValue
  lng : JSValue
  delivery_window : JSValue
deriving DecidableEq

/-- One flattened CSV row pushed by `handleExportCSV`. -/
structure CsvRow where
  route_id : ℕ
  stop_sequence : ℕ
  customer_id : JSValue
  customer_name : JSValue
  address : JSValue
  latitude : JSValue
  longitude : JSValue
  delivery_window : JSValue
  distance_from_previous : JSValue
  route_total_distance : JSValue
  route_estimated_time : JSValue
deriving DecidableEq

/-- `routeData.delivery_points?.find(p => p.id === stop.id)`. -/
def findPoint (dps : List DeliveryPoint) (sid : JSValue) : Option DeliveryPoint :=
  dps.find? (fun p => jsStrictEq p.id sid)

/-- Property read `point.f || ''` through the `|| {}` fallback: an unmatched
id yields an empty object whose properties read as `undefined`. -/
def fieldOr (p : Option DeliveryPoint) (f : DeliveryPoint → JSValue) : JSValue :=
  jsOr (match p with | some point => f point | none => .vundef) (.vstr "")

/-- The row object pushed by `handleExportCSV` for the stop at position
`stopIndex` of the route at position `routeIndex`. -/
def mkRow (dps : List DeliveryPoint) (routeIndex stopIndex : ℕ) (route : Route)
    (stop : Stop) : CsvRow :=
  let point := findPoint dps stop.id
  { route_id := routeIndex + 1
    stop_sequence := stopIndex + 1
    customer_id := stop.id
    customer_name := fieldOr point (fun p => p.customer_name)
    address := fieldOr point (fun p => p.address)
    latitude := fieldOr point (fun p => p.lat)
    longitude := fieldOr point (fun p => p.lng)
    delivery_window := fieldOr point (fun p => p.delivery_window)
    distance_from_previous := jsOr stop.distance (.vstr "")
    route_total_distance := jsOr route.total_distance (.vstr "")
    route_estimated_time := jsOr route.estimated_time (.vstr "") }

/-- The inner `route.stops.forEach((stop, stopIndex) => ...)` loop of
`handleExportCSV`, with `stopIndex` made an explicit parameter. -/
def rowsOfStops (dps : List DeliveryPoint) (route : Route) (routeIndex : ℕ) :
    List Stop → ℕ → List CsvRow
  | [], _ => []
  | s :: rest, stopIndex =>
      mkRow dps routeIndex stopIndex route s :: rowsOfStops dps route routeIndex rest (stopIndex + 1)

/-- The outer `routeData.routes?.forEach((route, routeIndex) => ...)` loop of
`handleExportCSV`, with `routeIndex` made an explicit parameter. -/
def flattenRoutesAux (dps : List DeliveryPoint) : List Route → ℕ → List CsvRow
  | [], _ => []
  | r :: rest, routeIndex =>
      rowsOfStops dps r routeIndex r.stops 0 ++ flattenRoutesAux dps rest (routeIndex + 1)

/-- The flattened row list built by `handleExportCSV` before it is handed to
the CSV serializer. -/
def flattenRoutes (routes : List Route) (dps : List DeliveryPoint) : List CsvRow :=
  flattenRoutesAux dps routes 0

/-- A record with all required fields present, both coordinates exactly 0. -/
def item0 : Item :=
  { id := some (.vnum 1), customer_name := some (.vstr "Alice"),
    lat := some (.vnum 0), lng := some (.vnum 0), address := some (.vstr "1 Main St") }

/-- A record missing every required field. -/
def itemNoFields : Item :=
  { id := none, customer_name := none, lat := none, lng := none, address := none }

/-- C1 (amended): for every NONEMPTY input array of records,
`validateDeliveryData` returns `isValid = false` exactly when the full
untruncated list of collected per-record errors is nonempty, and the
errors list it returns is the first min(n, 10) of the n collected errors,
in collection order.  (On the empty array the function returns
`isValid = false` through a separate guard although no per-record error
was collected, which refutes the claim as stated.) -/
theorem validation_truncation_amended (data : List Item) (h : data ≠ []) :
    ((validateDeliveryData data).isValid = false ↔ collectErrors data ≠ []) ∧
    (validateDeliveryData data).errors = (collectErrors data).take 10 := by
  have hne : data.isEmpty = false := by
    cases data with
    | nil => exact absurd rfl h
    | cons a l => rfl
  refine ⟨?_, ?_⟩
  · cases hcoll : collectErrors data with
    | nil => simp [validateDeliveryData, hne, hcoll]
    | cons e es => simp [validateDeliveryData, hne, hcoll]
  · simp [validateDeliveryData, hne]

/-- C1 (counterexample): on the empty array the collected per-record error
list is empty, yet `validateDeliveryData` reports `isValid = false`, and
the reported error list is not the (empty) truncation of the collected
list; so the claim fails as stated on the input `[]`. -/
theorem validation_truncation_counterexample :
    ¬ (((validateDeliveryData []).isValid = false ↔ collectErrors [] ≠ []) ∧
       (validateDeliveryData []).errors = (collectErrors []).take 10) := by decide

/-- C1 (witness): the amended theorem applied to a concrete one-record
array. -/
theorem validation_truncation_witness :
    ((validateDeliveryData [itemNoFields]).isValid = false ↔
      collectErrors [itemNoFields] ≠ []) ∧
    (validateDeliveryData [itemNoFields]).errors = (collectErrors [itemNoFields]).take 10 :=
  validation_truncation_amended [itemNoFields] (by decide)

/-- C2 (counterexample): a record whose `lat` and `lng` are exactly 0 — a
falsy value — is NOT rejected: `validateDeliveryData` reports the data
valid with no errors, refuting the claim that any falsy required-field
value is rejected. -/
theorem falsy_field_rejection_counterexample :
    (validateDeliveryData [item0]).isValid = true ∧
    (validateDeliveryData [item0]).errors = [] := by decide

/-- C2 (amended): `validateDeliveryData` rejects a record whenever a
required field is absent or its value is strictly `null`, `undefined` or
the empty string (contributing the corresponding per-row error); a record
whose `lat` or `lng` is exactly 0 and whose remaining required fields are
acceptable is reported valid with no error (the coordinate range check is
skipped on the falsy value 0). -/
theorem falsy_field_rejection_amended :
    (∀ (item : Item) (index : ℕ) (f : String), f ∈ requiredFields →
        isMissing (item.get f) = true →
        ("Row " ++ toString (index + 1) ++ ": Missing or empty field '" ++ f ++ "'")
          ∈ recordErrors item index) ∧
    (∀ item : Item, isMissing item.id = false → isMissing item.customer_name = false →
        isMissing item.address = false →
        item.lat = some (.vnum 0) → item.lng = some (.vnum 0) →
        validateDeliveryData [item] = { isValid := true, errors := [] }) := by
  constructor
  · intro item index f hf hmiss
    unfold recordErrors
    apply List.mem_append_left
    apply List.mem_append_left
    unfold requiredFieldErrors
    exact List.mem_map_of_mem _ (List.mem_filter.mpr ⟨hf, hmiss⟩)
  · intro item h1 h2 h3 hlat hlng
    have hrec : recordErrors item 0 = [] := by
      have hz : isMissing (some (JSValue.vnum 0)) = false := by decide
      simp [recordErrors, requiredFieldErrors, requiredFields, Item.get, latRangeError,
        lngRangeError, hlat, hlng, h1, h2, h3, hz, jsTruthyO, jsTruthy]
    simp [validateDeliveryData, collectErrors, collectAux, hrec]

/-- C2 (witness): the amended acceptance clause applied to the concrete
zero-coordinate record. -/
theorem falsy_field_rejection_witness :
    (isMissing item0.id = false ∧ isMissing item0.customer_name = false ∧
      isMissing item0.address = false) ∧
    validateDeliveryData [item0] = { isValid := true, errors := [] } :=
  ⟨⟨by decide, by decide, by decide⟩,
    falsy_field_rejection_amended.2 item0 (by decide) (by decide) (by decide) rfl rfl⟩

/-- C3 (counterexample): a payload decoding to the bare number 42 is NOT
rejected: `parseJSON` resolves it wrapped in a one-element array, refuting
the claim that only arrays and single objects are accepted. -/
theorem parseJSON_shape_counterexample :
    parseJSON (some (JSON.num 42)) = Except.ok [JSON.num 42] := rfl

/-- C3 (amended): `parseJSON` fails exactly on syntactically invalid JSON;
a decoded array is returned as-is, and ANY other decoded value — object,
number, string, boolean or null — is returned wrapped in a one-element
array. -/
theorem parseJSON_shape_amended :
    (∀ d : Option JSON, (∃ e, parseJSON d = .error e) ↔ d = none) ∧
    (∀ xs : List JSON, parseJSON (some (.arr xs)) = .ok xs) ∧
    (∀ v : JSON, (∀ xs : List JSON, v ≠ .arr xs) → parseJSON (some v) = .ok [v]) := by
  refine ⟨?_, ?_, ?_⟩
  · intro d
    constructor
    · rintro ⟨e, he⟩
      cases d with
      | none => rfl
      | some v => cases v <;> simp [parseJSON] at he
    · rintro rfl
      exact ⟨"Invalid JSON format", rfl⟩
  · intro xs
    rfl
  · intro v hv
    cases v with
    | arr xs => exact absurd rfl (hv xs)
    | null => rfl
    | bool b => rfl
    | num q => rfl
    | str s => rfl
    | obj fs => rfl

/-- C3 (witness): the wrapping clause of the amended theorem applied to a
bare string payload. -/
theorem parseJSON_shape_witness :
    parseJSON (some (JSON.str "hi")) = Except.ok [JSON.str "hi"] :=
  parseJSON_shape_amended.2.2 (JSON.str "hi") (fun _ h => JSON.noConfusion h)

/-- C7: `getRouteColor` selects from the fixed 8-color palette by route
index modulo the palette size: it is periodic with period 8, and routes 0
and 1 receive distinct colors.  Determinism and stability across
re-renders hold because the selection is a pure function of the index. -/
theorem getRouteColor_spec :
    (∀ i : ℕ, getRouteColor i = getRouteColor (i + 8)) ∧
    getRouteColor 0 ≠ getRouteColor 1 ∧ routeColors.length = 8 := by
  refine ⟨?_, by decide, rfl⟩
  intro i
  have h : (i + 8) % routeColors.length = i % routeColors.length := Nat.add_mod_right i 8
  rw [getRouteColor, getRouteColor, h]

/-- Appending to the empty string is the identity. -/
theorem strEmptyAppend (s : String) : "" ++ s = s := rfl

/-- Printing a nonnegative integer agrees with printing its natural-number
value. -/
theorem toStringIntToNat {z : ℤ} (h : 0 ≤ z) : toString z = toString z.toNat := by
  cases z with
  | ofNat m => rfl
  | negSucc m =>
      rw [Int.negSucc_eq] at h
      omega

/-- Rounding a nonnegative rational never goes below zero. -/
theorem jsRound_nonneg {q : ℚ} (h : 0 ≤ q) : 0 ≤ jsRound q := by
  rw [jsRound]
  exact Int.le_floor.mpr (by push_cast; linarith)

/-- C5: `formatDistance` renders a distance under 1 km as a whole number of
meters with an `" m"` suffix, and a distance of at least 1 km with exactly
two decimal places and a `" km"` suffix; in particular
`formatDistance 0.5 = "500 m"` and `formatDistance 1.5 = "1.50 km"`. -/
theorem formatDistance_spec :
    formatDistance (1 / 2) = "500 m" ∧ formatDistance (3 / 2) = "1.50 km" ∧
    (∀ q : ℚ, 0 ≤ q → q < 1 → ∃ n : ℕ, formatDistance q = toString n ++ " m") ∧
    (∀ q : ℚ, 1 ≤ q → ∃ a b : ℕ, b < 100 ∧
        formatDistance q = toString a ++ "." ++ pad2 b ++ " km") := by
  refine ⟨?_, ?_, ?_, ?_⟩
  · norm_num [formatDistance, toFixed0, toFixed2, jsRound, pad2]
    decide
  · norm_num [formatDistance, toFixed0, toFixed2, jsRound, pad2]
    decide
  · intro q h0 h1
    have hr : 0 ≤ jsRound (q * 1000) := jsRound_nonneg (by positivity)
    refine ⟨(jsRound (q * 1000)).toNat, ?_⟩
    rw [formatDistance, if_pos h1, toFixed0, toStringIntToNat hr]
  · intro q h1
    have h0 : ¬ q < 1 := not_lt.mpr h1
    have hr : 0 ≤ jsRound (q * 100) := jsRound_nonneg (by linarith)
    have hneg : ¬ jsRound (q * 100) < 0 := not_lt.mpr hr
    refine ⟨(jsRound (q * 100)).natAbs / 100, (jsRound (q * 100)).natAbs % 100,
      Nat.mod_lt _ (by norm_num), ?_⟩
    simp only [formatDistance, toFixed2]
    rw [if_neg h0, if_neg hneg, strEmptyAppend]

/-- C5 (witness): the meters clause applied at 0 km and the kilometers
clause applied at 3 km. -/
theorem formatDistance_witness :
    (∃ n : ℕ, formatDistance 0 = toString n ++ " m") ∧
    (∃ a b : ℕ, b < 100 ∧ formatDistance 3 = toString a ++ "." ++ pad2 b ++ " km") :=
  ⟨formatDistance_spec.2.2.1 0 (by decide) (by decide),
    formatDistance_spec.2.2.2 3 (by decide)⟩

/-- C6: `formatTime` renders m minutes as `"Nh Mm"` when m ≥ 60, with
N = ⌊m / 60⌋ and M the rounded value of m mod 60 (including exact hours),
and as `"M min"` when m < 60; in particular `formatTime 45 = "45 min"`,
`formatTime 90 = "1h 30m"` and `formatTime 60 = "1h 0m"`. -/
theorem formatTime_spec :
    formatTime 45 = "45 min" ∧ formatTime 90 = "1h 30m" ∧ formatTime 60 = "1h 0m" ∧
    (∀ m : ℚ, 0 ≤ m → m < 60 → formatTime m = toString (jsRound m) ++ " min") ∧
    (∀ m : ℚ, 60 ≤ m →
        formatTime m
          = toString ⌊m / 60⌋ ++ "h " ++ toString (jsRound (jsMod m 60)) ++ "m") := by
  refine ⟨?_, ?_, ?_, ?_, ?_⟩
  · norm_num [formatTime, jsMod, jsTrunc, jsRound]
    decide
  · norm_num [formatTime, jsMod, jsTrunc, jsRound]
    decide
  · norm_num [formatTime, jsMod, jsTrunc, jsRound]
    decide
  · intro m h0 h60
    have hfl : ⌊m / 60⌋ = 0 := by
      rw [Int.floor_eq_zero_iff]
      constructor
      · positivity
      · rw [div_lt_one (by norm_num : (0:ℚ) < 60)] at *
        linarith
    have hmod : jsMod m 60 = m := by
      rw [jsMod, jsTrunc, if_pos (by positivity : 0 ≤ m / 60), hfl]
      push_cast
      ring
    simp only [formatTime]
    rw [if_pos hfl, hmod]
  · intro m h60
    have hfl : ⌊m / 60⌋ ≠ 0 := by
      have h1 : 1 ≤ ⌊m / 60⌋ := by
        apply Int.le_floor.mpr
        rw [le_div_iff₀ (by norm_num : (0:ℚ) < 60)]
        push_cast
        linarith
      omega
    simp only [formatTime]
    rw [if_neg hfl]

/-- C6 (witness): the sub-hour clause applied at 45 minutes and the
hour clause applied at 61 minutes. -/
theorem formatTime_witness :
    formatTime 45 = toString (jsRound 45) ++ " min" ∧
    formatTime 61 = toString ⌊(61:ℚ) / 60⌋ ++ "h " ++ toString (jsRound (jsMod 61 60)) ++ "m" :=
  ⟨formatTime_spec.2.2.2.1 45 (by decide) (by decide),
    formatTime_spec.2.2.2.2 61 (by decide)⟩

/-- C4: for all coordinate pairs with latitudes in [-90, 90] and longitudes
in [-180, 180], the haversine distance from a point to itself is exactly 0,
and the distance is symmetric in its two endpoints. -/
theorem calculateDistance_zero_symm (lat1 lon1 lat2 lon2 : ℝ)
    (h1 : -90 ≤ lat1) (h2 : lat1 ≤ 90) (h3 : -180 ≤ lon1) (h4 : lon1 ≤ 180)
    (h5 : -90 ≤ lat2) (h6 : lat2 ≤ 90) (h7 : -180 ≤ lon2) (h8 : lon2 ≤ 180) :
    calculateDistance lat1 lon1 lat1 lon1 = 0 ∧
    calculateDistance lat1 lon1 lat2 lon2 = calculateDistance lat2 lon2 lat1 lon1 := by
  constructor
  · have ha : haversineA lat1 lon1 lat1 lon1 = 0 := by
      simp [haversineA, toRad, sub_self]
    have hat : atan2 0 1 = 0 := by
      rw [atan2, if_pos (by norm_num : (0:ℝ) < 1)]
      simp [Real.arctan_zero]
    simp [calculateDistance, ha, hat]
  · have hsym : haversineA lat2 lon2 lat1 lon1 = haversineA lat1 lon1 lat2 lon2 := by
      have t1 : toRad (lat1 - lat2) = -toRad (lat2 - lat1) := by
        rw [toRad, toRad]
        ring
      have t2 : toRad (lon1 - lon2) = -toRad (lon2 - lon1) := by
        rw [toRad, toRad]
        ring
      simp only [haversineA, t1, t2, neg_div, Real.sin_neg]
      ring
    simp only [calculateDistance, hsym]

/-- C4 (witness): the theorem applied to the New York / Los Angeles
coordinates used by the repository's own tests. -/
theorem calculateDistance_witness :
    calculateDistance 40.7128 (-74.0060) 40.7128 (-74.0060) = 0 ∧
    calculateDistance 40.7128 (-74.0060) 34.0522 (-118.2437)
      = calculateDistance 34.0522 (-118.2437) 40.7128 (-74.0060) :=
  calculateDistance_zero_symm 40.7128 (-74.0060) 34.0522 (-118.2437)
    (by norm_num) (by norm_num) (by norm_num) (by norm_num)
    (by norm_num) (by norm_num) (by norm_num) (by norm_num)

/-- The inner stop loop emits exactly one row per stop. -/
theorem rowsOfStops_length (dps : List DeliveryPoint) (route : Route) (routeIndex : ℕ) :
    ∀ (stops : List Stop) (stopIndex : ℕ),
      (rowsOfStops dps route routeIndex stops stopIndex).length = stops.length := by
  intro stops
  induction stops with
  | nil => intro stopIndex; rfl
  | cons s rest ih =>
      intro stopIndex
      simp [rowsOfStops, ih]

/-- The row at position `i` of the inner stop loop is the row built for the
stop at position `i`, with the running stop index shifted accordingly. -/
theorem rowsOfStops_get (dps : List DeliveryPoint) (route : Route) (routeIndex : ℕ) :
    ∀ (stops : List Stop) (stopIndex i : ℕ) (stop : Stop), stops.get? i = some stop →
      (rowsOfStops dps route routeIndex stops stopIndex).get? i
        = some (mkRow dps routeIndex (stopIndex + i) route stop) := by
  intro stops
  induction stops with
  | nil =>
      intro stopIndex i stop h
      simp at h
  | cons s rest ih =>
      intro stopIndex i stop h
      cases i with
      | zero =>
          simp at h
          subst h
          simp [rowsOfStops]
      | succ j =>
          simp only [List.get?_cons_succ] at h
          have harith : stopIndex + (j + 1) = (stopIndex + 1) + j := by omega
          rw [harith]
          simpa [rowsOfStops] using ih (stopIndex + 1) j stop h

/-- The outer route loop emits one row per (route, stop) pair. -/
theorem flattenRoutesAux_length (dps : List DeliveryPoint) :
    ∀ (routes : List Route) (routeIndex : ℕ),
      (flattenRoutesAux dps routes routeIndex).length
        = (routes.map (fun r => r.stops.length)).sum := by
  intro routes
  induction routes with
  | nil => intro routeIndex; rfl
  | cons r rest ih =>
      intro routeIndex
      simp [flattenRoutesAux, rowsOfStops_length, ih]

/-- The row for the stop at position `si` of the route at position `ri`
sits at global position (number of stops of the earlier routes) + `si`. -/
theorem flattenRoutesAux_get (dps : List DeliveryPoint) :
    ∀ (routes : List Route) (rBase ri si : ℕ) (route : Route) (stop : Stop),
      routes.get? ri = some route → route.stops.get? si = some stop →
      (flattenRoutesAux dps routes rBase).get?
          (((routes.take ri).map (fun r => r.stops.length)).sum + si)
        = some (mkRow dps (rBase + ri) si route stop) := by
  intro routes
  induction routes with
  | nil =>
      intro rBase ri si route stop hr
      simp at hr
  | cons r rest ih =>
      intro rBase ri si route stop hr hs
      cases ri with
      | zero =>
          simp only [List.get?_cons_zero, Option.some.injEq] at hr
          subst hr
          have hsi : si < (rowsOfStops dps r rBase r.stops 0).length := by
            rw [rowsOfStops_length]
            exact (List.get?_eq_some.mp hs).1
          simp only [List.take_zero, List.map_nil, List.sum_nil, Nat.zero_add,
            flattenRoutesAux]
          rw [List.get?_append hsi]
          simpa using rowsOfStops_get dps r rBase r.stops 0 si stop hs
      | succ k =>
          simp only [List.get?_cons_succ] at hr
          have hlen : (rowsOfStops dps r rBase r.stops 0).length = r.stops.length :=
            rowsOfStops_length dps r rBase r.stops 0
          have hpos : ((( r :: rest).take (k + 1)).map (fun r => r.stops.length)).sum + si
              = r.stops.length + (((rest.take k).map (fun r => r.stops.length)).sum + si) := by
            simp [List.take_succ_cons]
            omega
          rw [flattenRoutesAux, hpos]
          rw [List.get?_append_right (by omega : (rowsOfStops dps r rBase r.stops 0).length
            ≤ r.stops.length + (((rest.take k).map (fun r => r.stops.length)).sum + si))]
          rw [hlen]
          have harith : r.stops.length + (((rest.take k).map (fun r => r.stops.length)).sum + si)
              - r.stops.length = ((rest.take k).map (fun r => r.stops.length)).sum + si := by
            omega
          rw [harith]
          have hbase : rBase + (k + 1) = (rBase + 1) + k := by omega
          rw [hbase]
          exact ih (rBase + 1) k si route stop hr hs

/-- C9: the CSV export flattening emits exactly one row per (route, stop)
pair, in route order then stop order: the total row count is the sum of
the routes' stop counts, and the row for stop `si` of route `ri` sits at
the global position given by the stops of the earlier routes.  Each row
carries the 1-based route index, the 1-based stop sequence number, the
stop's id, the customer fields of the delivery point found by id
cross-reference (whenever those fields are truthy, since the source
defaults falsy fields to the empty string), and the route's totals
repeated on every row of that route. -/
theorem csvExport_flattening (routes : List Route) (dps : List DeliveryPoint) :
    ((flattenRoutes routes dps).length = (routes.map (fun r => r.stops.length)).sum) ∧
    (∀ (ri si : ℕ) (route : Route) (stop : Stop),
        routes.get? ri = some route → route.stops.get? si = some stop →
        (flattenRoutes routes dps).get?
            (((routes.take ri).map (fun r => r.stops.length)).sum + si)
          = some (mkRow dps ri si route stop)) ∧
    (∀ (ri si : ℕ) (route : Route) (stop : Stop) (point : DeliveryPoint),
        findPoint dps stop.id = some point →
        jsTruthy point.customer_name = true → jsTruthy point.address = true →
        jsTruthy point.lat = true → jsTruthy point.lng = true →
        jsTruthy point.delivery_window = true →
        jsTruthy route.total_distance = true → jsTruthy route.estimated_time = true →
        (mkRow dps ri si route stop).route_id = ri + 1 ∧
        (mkRow dps ri si route stop).stop_sequence = si + 1 ∧
        (mkRow dps ri si route stop).customer_id = stop.id ∧
        (mkRow dps ri si route stop).customer_name = point.customer_name ∧
        (mkRow dps ri si route stop).address = point.address ∧
        (mkRow dps ri si route stop).latitude = point.lat ∧
        (mkRow dps ri si route stop).longitude = point.lng ∧
        (mkRow dps ri si route stop).delivery_window = point.delivery_window ∧
        (mkRow dps ri si route stop).route_total_distance = route.total_distance ∧
        (mkRow dps ri si route stop).route_estimated_time = route.estimated_time) := by
  refine ⟨flattenRoutesAux_length dps routes 0, ?_, ?_⟩
  · intro ri si route stop hr hs
    have := flattenRoutesAux_get dps routes 0 ri si route stop hr hs
    simpa [flattenRoutes] using this
  · intro ri si route stop point hfind hcn ha hlat hlng hdw htd het
    simp [mkRow, fieldOr, jsOr, hfind, hcn, ha, hlat, hlng, hdw, htd, het]

/-- A concrete one-stop route used to witness the export flattening. -/
def stop1 : Stop := { id := .vnum 1, distance := .vnum 2 }

/-- A concrete route used to witness the export flattening. -/
def route1 : Route := { stops := [stop1], total_distance := .vnum 10, estimated_time := .vnum 30 }

/-- A concrete delivery point matching `stop1` by id. -/
def dp1 : DeliveryPoint :=
  { id := .vnum 1, customer_name := .vstr "Alice", address := .vstr "1 Main St",
    lat := .vnum 40, lng := .vnum (-74), delivery_window := .vstr "9-5" }

/-- C9 (witness): the positional clause and the field clause of the
flattening theorem applied to a concrete one-route, one-stop bundle. -/
theorem csvExport_flattening_witness :
    (flattenRoutes [route1] [dp1]).get? 0 = some (mkRow [dp1] 0 0 route1 stop1) ∧
    (mkRow [dp1] 0 0 route1 stop1).customer_name = dp1.customer_name :=
  ⟨(csvExport_flattening [route1] [dp1]).2.1 0 0 route1 stop1 rfl rfl,
    ((csvExport_flattening [route1] [dp1]).2.2 0 0 route1 stop1 dp1 (by decide) (by decide)
        (by decide) (by decide) (by decide) (by decide) (by decide)
        (by decide)).2.2.2.1⟩

end RoutePlanner
